import Mathlib

/-!
Verification of the mesh-rangetest-map repository (src/main.py and
src/rtmap.py) against its natural-language specification.

Both scripts read CSV files of radio range-test logs, normalize the SNR
value of each record into a [0,1] heat weight, and build heatmap point
lists `[lat, lon, weight]`.  We embed the record-level data flow of both
scripts shallowly: CSV cells become `Option ℚ` (with `none` playing the
role of a missing value / NaN), the JSON-ish payload values of rtmap.py
become an inductive `PyVal`, and the per-file / per-run control flow of
each script becomes a function on an explicit file model.  Floating point
is modelled by ℚ: every arithmetic operation the scripts perform on these
values (add, subtract, divide by a constant, clamp, compare) is exact on
the values appearing in the claims, so no rounding behaviour is lost.
-/

/-- A heat point `[lat, lon, weight]` as appended to the `heat_data` /
`heat_points` lists of both scripts. -/
abbrev HeatPoint := ℚ × ℚ × ℚ

/-! ## Normalizers

main.py line 48: `weight = max(0.0, min(1.0, (snr + 21.0) / 33.0))`.

rtmap.py lines 47-48:
`df["rx snr"] = df["rx snr"].clip(-21, 12)` and
`df["weight"] = (df["rx snr"] - (-21)) / (12 - (-21))`. -/

/-- Model of `pandas.Series.clip(lo, hi)` on a single value: values below
`lo` become `lo`, values above `hi` become `hi`. -/
def clip (x lo hi : ℚ) : ℚ := max lo (min x hi)

/-- The SNR-to-weight normalization of main.py (line 48). -/
def mainWeight (snr : ℚ) : ℚ := max 0 (min 1 ((snr + 21) / 33))

/-- The SNR-to-weight normalization of rtmap.py (lines 47-48): clip into
`[-21, 12]`, then scale by `(snr - (-21)) / (12 - (-21))`. -/
def rtmapWeight (snr : ℚ) : ℚ := (clip snr (-21) 12 - (-21)) / (12 - (-21))

/-! ## main.py row filtering

main.py line 21 keeps only rows whose `payload` cell is a string matching
the regular expression `seq \d+` somewhere (`Series.str.contains` with
`na=False`, so missing / non-string payload cells are dropped).  Lines
27-34 then drop rows with a missing coordinate or SNR cell and rows whose
coordinates fall outside `[-90, 90] × [-180, 180]`. -/

/-- Does the character list start with `seq ` followed by a digit?  This
is a match of the regular expression `seq \d+` anchored at the head: the
`+` needs at least one digit and further digits extend the match without
affecting whether it exists. -/
def seqNumAt : List Char → Bool
  | 's' :: 'e' :: 'q' :: ' ' :: c :: _ => c.isDigit
  | _ => false

/-- Unanchored search used by `Series.str.contains(r"seq \d+")`: some
position of the string starts a match of `seq \d+`. -/
def containsSeqNumL : List Char → Bool
  | [] => false
  | c :: rest => seqNumAt (c :: rest) || containsSeqNumL rest

/-- Search for `seq \d+` in a string. -/
def containsSeqNum (s : String) : Bool := containsSeqNumL s.data

/-- One CSV row as main.py sees it: the `payload` cell (a string, or
`none` for NaN / a non-string cell, which `str.contains(..., na=False)`
drops) and the `rx lat` / `rx long` / `rx snr` cells (`none` = NaN,
dropped by `dropna`). -/
structure MainRow where
  payload : Option String
  rxLat : Option ℚ
  rxLong : Option ℚ
  rxSnr : Option ℚ
deriving DecidableEq

/-- The `seq \d+` payload filter of main.py line 21 on one row. -/
def mainRowSeqOk (r : MainRow) : Bool :=
  match r.payload with
  | some s => containsSeqNum s
  | none => false

/-- The heat point main.py produces from one row, or `none` when the row
is filtered out (payload filter line 21, `dropna` line 27, coordinate
range filters lines 31-32).  `isinstance(x, (int, float))` (lines 29-33)
is always true of a present numeric cell in this model. -/
def mainRowPoint (r : MainRow) : Option HeatPoint :=
  match r.rxLat, r.rxLong, r.rxSnr with
  | some la, some lo, some s =>
      if mainRowSeqOk r && decide (-90 ≤ la) && decide (la ≤ 90)
          && decide (-180 ≤ lo) && decide (lo ≤ 180)
      then some (la, lo, mainWeight s)
      else none
  | _, _, _ => none

/-- The `heat_data` list main.py builds from the rows of one file
(lines 41-49). -/
def mainHeatData (rows : List MainRow) : List HeatPoint :=
  rows.filterMap mainRowPoint

/-! ## rtmap.py payload extraction

rtmap.py `extract_values_from_payload` (lines 9-25): decode a string
payload with `json.loads` (or use a dict payload directly; anything else
yields `(None, None, None)`), look each field up under its exact synonym
keys chained with Python `or`, and convert with `float`; every exception
is caught and yields `(None, None, None)`. -/

/-- A JSON-decoded Python value as it can appear under a payload key.
Nested containers never appear in the claims and are not modelled. -/
inductive PyVal where
  | vnum : ℚ → PyVal
  | vstr : String → PyVal
  | vbool : Bool → PyVal
  | vnull : PyVal
deriving DecidableEq

/-- Python truthiness of a `dict.get` result: `None` (absent key or JSON
null), `0`, `0.0`, `False` and `""` are falsy. -/
def pyTruthy : Option PyVal → Bool
  | none => false
  | some (PyVal.vnum q) => decide (q ≠ 0)
  | some (PyVal.vstr s) => decide (s ≠ "")
  | some (PyVal.vbool b) => b
  | some PyVal.vnull => false

/-- Semantics of Python `a or b`: the value of `a` when truthy, otherwise the value of
`b`. -/
def pyOr (a b : Option PyVal) : Option PyVal := if pyTruthy a then a else b

/-- Python `dict.get k`: the value stored under `k`, or `None`.  A Python dict
has at most one entry per key; an association list with first-match
lookup models it. -/
def dictGet (d : List (String × PyVal)) (k : String) : Option PyVal :=
  (d.find? (fun p => p.1 == k)).map (fun p => p.2)

/-- Digit-list value, most significant first. -/
def digitsVal : List Char → ℕ
  | [] => 0
  | c :: rest => (c.toNat - '0'.toNat) * 10 ^ rest.length + digitsVal rest

/-- Split a character list at the dots. -/
def splitOnDot : List Char → List (List Char)
  | [] => [[]]
  | '.' :: rest => [] :: splitOnDot rest
  | c :: rest =>
      match splitOnDot rest with
      | [] => [[c]]
      | p :: ps => (c :: p) :: ps

/-- Behaviour of Python `float()` on an unsigned literal: plain digits, or digits with
one dot (`"1."` and `".5"` are legal, `"."` and `""` are not).  Exotic
float syntax (exponents, `inf`, `nan`, whitespace) raises no claim here
and is left unparsed (conversion failure). -/
def parseUnsignedFloat? (l : List Char) : Option ℚ :=
  match splitOnDot l with
  | [i] =>
      if i ≠ [] ∧ i.all Char.isDigit then some (digitsVal i) else none
  | [i, f] =>
      if (i ++ f) ≠ [] ∧ (i ++ f).all Char.isDigit then
        some ((digitsVal i : ℚ) + (digitsVal f : ℚ) / 10 ^ f.length)
      else none
  | _ => none

/-- Behaviour of Python `float()` on a string: optional sign, then an unsigned float
literal; anything else raises (here: `none`). -/
def parseFloat? (s : String) : Option ℚ :=
  match s.data with
  | '-' :: rest => (parseUnsignedFloat? rest).map Neg.neg
  | '+' :: rest => parseUnsignedFloat? rest
  | l => parseUnsignedFloat? l

/-- Behaviour of Python `float()` on a `dict.get` result: numbers pass through, bools
are 1 / 0, numeric strings parse; `None` / JSON null / other strings
raise (here: `none`). -/
def pyFloat : Option PyVal → Option ℚ
  | none => none
  | some (PyVal.vnum q) => some q
  | some (PyVal.vstr s) => parseFloat? s
  | some (PyVal.vbool b) => some (if b then 1 else 0)
  | some PyVal.vnull => none

/-- Outcome of `json.loads` on a string payload.  `json.loads` itself is
library code outside this repository, so the payload carries its outcome
rather than a re-implementation of JSON parsing: it raises (`failed`),
returns an object (`obj`), or returns a non-object value (`nonObj`, on
which the subsequent `.get` raises `AttributeError`). -/
inductive DecodeResult where
  | failed : DecodeResult
  | obj : List (String × PyVal) → DecodeResult
  | nonObj : DecodeResult
deriving DecidableEq

/-- The `payload` argument of `extract_values_from_payload`: a string
(tagged with its `json.loads` outcome), a dict, or any other value. -/
inductive Payload where
  | strPayload : DecodeResult → Payload
  | dictPayload : List (String × PyVal) → Payload
  | otherPayload : Payload
deriving DecidableEq

/-- Lines 19-23 of rtmap.py on a decoded dict: the three `or`-chained
exact-key lookups followed by the three `float` conversions inside the
same `try`, so one failed conversion drops all three values. -/
def extractFromDict (d : List (String × PyVal)) :
    Option ℚ × Option ℚ × Option ℚ :=
  let la := pyOr (pyOr (dictGet d "rx lat") (dictGet d "lat")) (dictGet d "latitude")
  let lo := pyOr (pyOr (dictGet d "rx long") (dictGet d "lon")) (dictGet d "longitude")
  let sn := pyOr (pyOr (dictGet d "rx snr") (dictGet d "snr")) (dictGet d "SNR")
  match pyFloat la, pyFloat lo, pyFloat sn with
  | some a, some b, some c => (some a, some b, some c)
  | _, _, _ => (none, none, none)

/-- rtmap.py `extract_values_from_payload` (lines 9-25). -/
def extract_values_from_payload : Payload → Option ℚ × Option ℚ × Option ℚ
  | Payload.strPayload DecodeResult.failed => (none, none, none)
  | Payload.strPayload DecodeResult.nonObj => (none, none, none)
  | Payload.strPayload (DecodeResult.obj d) => extractFromDict d
  | Payload.dictPayload d => extractFromDict d
  | Payload.otherPayload => (none, none, none)

/-! ## rtmap.py point building

rtmap.py `create_heatmap_layer` (lines 28-73): with the three columns
present, `dropna` keeps the rows whose three cells are all present and
each surviving row yields `[lat, lon, weight]`; with only a `payload`
column, the extraction above fills the three columns first.  No
coordinate-range filtering happens in this file. -/

/-- One CSV row of rtmap.py when the `rx lat` / `rx long` / `rx snr`
columns are present (`none` = NaN, dropped by `dropna`). -/
structure RtRow where
  rxLat : Option ℚ
  rxLong : Option ℚ
  rxSnr : Option ℚ
deriving DecidableEq

/-- The heat points rtmap.py builds from rows with explicit columns
(lines 41-50). -/
def rtmapHeatPoints (rows : List RtRow) : List HeatPoint :=
  rows.filterMap (fun r =>
    match r.rxLat, r.rxLong, r.rxSnr with
    | some la, some lo, some s => some (la, lo, rtmapWeight s)
    | _, _, _ => none)

/-- The heat points rtmap.py builds from a `payload` column (lines 34-36
feed `extract_values_from_payload` into the three columns, and lines
41-50 proceed as above). -/
def rtmapPayloadHeatPoints (ps : List Payload) : List HeatPoint :=
  ps.filterMap (fun p =>
    match extract_values_from_payload p with
    | (some la, some lo, some s) => some (la, lo, rtmapWeight s)
    | _ => none)

/-! ## rtmap.py run flow

rtmap.py `__main__` (lines 163-173) and `create_map_with_layers`
(lines 76-160).  `pd.read_csv` on line 29 sits outside any `try`, so an
unreadable file raises through `create_heatmap_layer` and the loop of
`create_map_with_layers` and kills the run (Python then exits with
status 1 after printing a traceback). -/

/-- One CSV file as rtmap.py sees it: unreadable (`pd.read_csv` raises),
readable with the three columns, readable with only a `payload` column,
or readable with neither. -/
inductive RtCsv where
  | unreadable : RtCsv
  | cols : List RtRow → RtCsv
  | payloadOnly : List Payload → RtCsv
  | noCols : RtCsv
deriving DecidableEq

/-- rtmap.py `create_heatmap_layer` on one file: `Except.error ()` when
`pd.read_csv` raises (uncaught), `Except.ok none` when the file is
skipped with a warning (missing columns line 38, or empty after
filtering line 43), `Except.ok (some pts)` for a layer carrying the heat
points.  A file nonempty after `dropna` yields a nonempty point list, so
the `df.empty` test (line 42) is exactly the emptiness of the point
list. -/
def rt_create_heatmap_layer : RtCsv → Except Unit (Option (List HeatPoint))
  | RtCsv.unreadable => Except.error ()
  | RtCsv.cols rows =>
      let pts := rtmapHeatPoints rows
      Except.ok (if pts.isEmpty then none else some pts)
  | RtCsv.payloadOnly ps =>
      let pts := rtmapPayloadHeatPoints ps
      Except.ok (if pts.isEmpty then none else some pts)
  | RtCsv.noCols => Except.ok none

/-- The layer-collecting loop of `create_map_with_layers` (lines 79-82):
layers accumulate in order; an exception from any file propagates. -/
def rt_collectLayers : List RtCsv → Except Unit (List (List HeatPoint))
  | [] => Except.ok []
  | f :: fs =>
      match rt_create_heatmap_layer f with
      | Except.error e => Except.error e
      | Except.ok none => rt_collectLayers fs
      | Except.ok (some l) =>
          match rt_collectLayers fs with
          | Except.error e => Except.error e
          | Except.ok ls => Except.ok (l :: ls)

/-- Observable outcome of one run: process exit status, whether the
output HTML file was written, and whether a terminal status message
(`CSV-файлы не найдены` or `Нет корректных CSV`) was printed.  A crash
prints only a traceback, recorded as `msgShown = false`. -/
structure RunOutcome where
  exitCode : ℕ
  outputWritten : Bool
  msgShown : Bool
deriving DecidableEq

/-- rtmap.py `__main__`: no files → message and `exit(1)`; an unreadable
file → uncaught exception (exit status 1, nothing written); no valid
layers → message, `create_map_with_layers` returns without saving, and
the script still finishes with exit status 0 (line 173 even prints a
success message); otherwise the map is saved and the run exits 0. -/
def rt_main (files : List RtCsv) : RunOutcome :=
  if files.isEmpty then ⟨1, false, true⟩
  else
    match rt_collectLayers files with
    | Except.error _ => ⟨1, false, false⟩
    | Except.ok [] => ⟨0, false, true⟩
    | Except.ok (_ :: _) => ⟨0, true, false⟩

/-- A file is usable for rtmap.py when it contributes a layer. -/
def rtUsable (f : RtCsv) : Bool :=
  match rt_create_heatmap_layer f with
  | Except.ok (some _) => true
  | _ => false

/-- A file is readable for rtmap.py when `pd.read_csv` succeeds. -/
def rtReadable (f : RtCsv) : Bool :=
  match f with
  | RtCsv.unreadable => false
  | _ => true

/-! ## main.py run flow

main.py `create_heatmap_layer` (lines 9-61) and `main` (lines 99-196).
`create_heatmap_layer` guards its `pd.read_csv` with `try`/`except` and
returns `None` on every failure path, so the per-file loop (lines
183-186) never aborts.  `main` itself, however, reads the first file
again for the base map (line 110) with no `try`, and indexes the
`payload`, `rx lat`, `rx long` columns unguarded (lines 111-121), so a
first file that is unreadable or lacks those columns kills the run.
When `main` survives that, the map is saved unconditionally (line 195)
whether or not any file produced a layer. -/

/-- One CSV file as main.py sees it: readability and presence of each
column the script touches, plus the rows. -/
structure MainCsv where
  readable : Bool
  hasPayloadCol : Bool
  hasLatCol : Bool
  hasLongCol : Bool
  hasSnrCol : Bool
  rows : List MainRow
deriving DecidableEq

/-- main.py `create_heatmap_layer` on one file: `none` on an unreadable
file (warning, line 13), a missing `payload` column (line 18), missing
required columns (line 24) or no valid rows (line 37); otherwise the
heat-point list of the layer. -/
def main_create_heatmap_layer (f : MainCsv) : Option (List HeatPoint) :=
  if !f.readable then none
  else if !f.hasPayloadCol then none
  else if !(f.hasLatCol && f.hasLongCol && f.hasSnrCol) then none
  else
    let pts := mainHeatData f.rows
    if pts.isEmpty then none else some pts

/-- The layers the loop of main.py lines 183-186 adds to the map. -/
def mainLayers (files : List MainCsv) : List (List HeatPoint) :=
  files.filterMap main_create_heatmap_layer

/-- main.py `main`: no files → message and plain `return` (exit status
0); first file unreadable or missing the `payload` / `rx lat` /
`rx long` columns → uncaught exception at lines 110-118 (exit status 1,
nothing written); otherwise the run always saves `rangetest-map.html`
and exits 0, regardless of how many files produced layers. -/
def main_main (files : List MainCsv) : RunOutcome :=
  match files with
  | [] => ⟨0, false, true⟩
  | first :: _ =>
      if !first.readable then ⟨1, false, false⟩
      else if !first.hasPayloadCol then ⟨1, false, false⟩
      else if !(first.hasLatCol && first.hasLongCol) then ⟨1, false, false⟩
      else ⟨0, true, false⟩

/-! ## The spec's resolver policy and min-max normalizer

Used only for comparison with the code (claims C5 and C6); the code of
src/ contains neither. -/

/-- Case folding plus whitespace/underscore removal, the normalization
the spec's matching policy applies to both keyword and candidate. -/
def normalizeKey (s : String) : String :=
  ⟨s.data.filterMap (fun c =>
    if c = ' ' ∨ c = '_' then none else some c.toLower)⟩

/-- Does the first character list appear contiguously in the second? -/
def startsWithCh : List Char → List Char → Bool
  | [], _ => true
  | _ :: _, [] => false
  | a :: as, b :: bs => a == b && startsWithCh as bs

/-- Contiguous-substring test on character lists. -/
def subChain (sub : List Char) : List Char → Bool
  | [] => sub.isEmpty
  | c :: rest => startsWithCh sub (c :: rest) || subChain sub rest

/-- Modelled from the spec: the Column/Field Resolver matching policy of
spec section 4.1 — "case-insensitive, whitespace/underscore-insensitive
substring containment; first matching candidate wins (order =
declaration order of the input field set)" — which no function under
src/ implements (both scripts look fields up by exact name). -/
def specFindField (keywords : List String) (fields : List String) :
    Option String :=
  fields.find? (fun f =>
    keywords.any (fun k => subChain (normalizeKey k).data (normalizeKey f).data))

/-- Dataset minimum of a nonempty list given head and tail. -/
def datasetMin (v : ℚ) (vs : List ℚ) : ℚ := vs.foldl min v

/-- Dataset maximum of a nonempty list given head and tail. -/
def datasetMax (v : ℚ) (vs : List ℚ) : ℚ := vs.foldl max v

/-- Modelled from the spec: the per-dataset min-max scaling policy of
spec section 4.2, absent from src/ — weight = (value − dataset_min) /
(dataset_max − dataset_min), with the degenerate all-equal dataset
mapped to weight 0.5 for every point instead of dividing by zero. -/
def minMaxWeight (lo hi x : ℚ) : ℚ :=
  if lo = hi then 1 / 2 else (x - lo) / (hi - lo)

/-- Modelled from the spec: min-max normalization of a whole nonempty
dataset. -/
def minMaxWeights (v : ℚ) (vs : List ℚ) : List ℚ :=
  (v :: vs).map (minMaxWeight (datasetMin v vs) (datasetMax v vs))

/-! ## Shared lemmas -/

/-- The scale-then-clamp normalizer of main.py agrees with the
clamp-then-scale normalizer of rtmap.py at every raw value. -/
theorem weight_eq (x : ℚ) : mainWeight x = rtmapWeight x := by
  unfold mainWeight rtmapWeight clip
  rw [show (12 : ℚ) - (-21) = 33 by norm_num, sub_neg_eq_add]
  rw [← max_add_add_right, ← min_add_add_right]
  norm_num
  rw [← max_div_div_right (by norm_num : (0:ℚ) ≤ 33),
      ← min_div_div_right (by norm_num : (0:ℚ) ≤ 33)]
  norm_num [min_comm]

/-- The main.py normalizer is monotone in the raw SNR value. -/
theorem mainWeight_mono {x y : ℚ} (h : x ≤ y) : mainWeight x ≤ mainWeight y := by
  unfold mainWeight
  refine max_le_max le_rfl (min_le_min le_rfl ?_)
  exact div_le_div_of_nonneg_right (by linarith) (by norm_num)

/-- The main.py normalizer always lands in `[0, 1]`. -/
theorem mainWeight_bounds (x : ℚ) : 0 ≤ mainWeight x ∧ mainWeight x ≤ 1 :=
  ⟨le_max_left 0 _, max_le (by norm_num) (min_le_left 1 _)⟩

/-- Folding `min` over a list of copies of the seed returns the seed. -/
theorem foldl_min_const : ∀ (vs : List ℚ) (v : ℚ), (∀ x ∈ vs, x = v) → vs.foldl min v = v
  | [], _, _ => rfl
  | a :: as, v, h => by
      have ha : a = v := h a (by simp)
      rw [List.foldl_cons, ha, min_self]
      exact foldl_min_const as v (fun x hx => h x (by simp [hx]))

/-- Folding `max` over a list of copies of the seed returns the seed. -/
theorem foldl_max_const : ∀ (vs : List ℚ) (v : ℚ), (∀ x ∈ vs, x = v) → vs.foldl max v = v
  | [], _, _ => rfl
  | a :: as, v, h => by
      have ha : a = v := h a (by simp)
      rw [List.foldl_cons, ha, max_self]
      exact foldl_max_const as v (fun x hx => h x (by simp [hx]))

/-- A readable file that contributes no layer makes rtmap.py
`create_heatmap_layer` return `None`. -/
theorem create_eq_ok_none_of_unusable (f : RtCsv) (h1 : rtReadable f = true)
    (h2 : rtUsable f = false) : rt_create_heatmap_layer f = Except.ok none := by
  cases f with
  | unreadable => simp [rtReadable] at h1
  | noCols => rfl
  | cols rows =>
      unfold rtUsable at h2
      unfold rt_create_heatmap_layer at h2 ⊢
      by_cases he : (rtmapHeatPoints rows).isEmpty
      · simp [he]
      · simp [he] at h2
  | payloadOnly ps =>
      unfold rtUsable at h2
      unfold rt_create_heatmap_layer at h2 ⊢
      by_cases he : (rtmapPayloadHeatPoints ps).isEmpty
      · simp [he]
      · simp [he] at h2

/-- Over files that contribute no layer, the rtmap.py collecting loop
either dies on an unreadable file or ends with no layers. -/
theorem collect_unusable : ∀ (files : List RtCsv),
    (∀ f ∈ files, rtUsable f = false) →
    rt_collectLayers files = Except.error () ∨ rt_collectLayers files = Except.ok []
  | [], _ => Or.inr rfl
  | f :: fs, h => by
      have hf : rtUsable f = false := h f (by simp)
      unfold rt_collectLayers
      unfold rtUsable at hf
      rcases hcl : rt_create_heatmap_layer f with e | o
      · left; rfl
      · rcases o with _ | l
        · exact collect_unusable fs (fun x hx => h x (by simp [hx]))
        · rw [hcl] at hf; simp at hf

/-- Over readable files that contribute no layer, the rtmap.py collecting
loop ends normally with no layers. -/
theorem collect_readable_unusable : ∀ (files : List RtCsv),
    (∀ f ∈ files, rtReadable f = true ∧ rtUsable f = false) →
    rt_collectLayers files = Except.ok []
  | [], _ => rfl
  | f :: fs, h => by
      have hf := h f (by simp)
      unfold rt_collectLayers
      rw [create_eq_ok_none_of_unusable f hf.1 hf.2]
      exact collect_readable_unusable fs (fun x hx => h x (by simp [hx]))

/-! ## Claims -/

/-- C1 (counterexample): rtmap.py performs no coordinate-range
validation — a record with latitude 200 and longitude 300 passes straight
into the heat-point set, so the claim that no dataset ever emits a point
with latitude outside `[-90, 90]` or longitude outside `[-180, 180]` is
false for the rtmap.py pipeline. -/
theorem c1_coordinate_range_counterexample :
    rtmapHeatPoints [⟨some 200, some 300, some 0⟩] = [(200, 300, 7 / 11)] ∧
    ¬((200 : ℚ) ≤ 90) ∧ ¬((300 : ℚ) ≤ 180) := by
  refine ⟨?_, by norm_num, by norm_num⟩
  simp [rtmapHeatPoints, List.filterMap]
  norm_num [rtmapWeight, clip]

/-- C1 (amended): in main.py every heat point has latitude in
`[-90, 90]` and longitude in `[-180, 180]`, and a row with an
out-of-range coordinate is discarded (its heat point is `none`), not
clamped; rtmap.py performs no such validation. -/
theorem c1_coordinate_range :
    (∀ (rows : List MainRow), ∀ p ∈ mainHeatData rows,
        -90 ≤ p.1 ∧ p.1 ≤ 90 ∧ -180 ≤ p.2.1 ∧ p.2.1 ≤ 180) ∧
    (∀ (r : MainRow) (la lo : ℚ), r.rxLat = some la → r.rxLong = some lo →
        (la < -90 ∨ 90 < la ∨ lo < -180 ∨ 180 < lo) → mainRowPoint r = none) := by
  constructor
  · intro rows p hp
    rw [mainHeatData, List.mem_filterMap] at hp
    obtain ⟨r, _, he⟩ := hp
    unfold mainRowPoint at he
    rcases hla : r.rxLat with _ | la <;> rw [hla] at he
    · exact absurd he (by simp)
    rcases hlo : r.rxLong with _ | lo <;> rw [hlo] at he
    · exact absurd he (by simp)
    rcases hsn : r.rxSnr with _ | s <;> rw [hsn] at he
    · exact absurd he (by simp)
    simp only at he
    split at he
    · next hc =>
        simp only [Bool.and_eq_true, decide_eq_true_eq] at hc
        cases he
        exact ⟨hc.1.1.1.2, hc.1.1.2, hc.1.2, hc.2⟩
    · exact absurd he (by simp)
  · intro r la lo h1 h2 h3
    unfold mainRowPoint
    rw [h1, h2]
    rcases hsn : r.rxSnr with _ | s
    · rfl
    simp only
    rw [if_neg]
    simp only [Bool.and_eq_true, decide_eq_true_eq]
    rintro ⟨⟨⟨⟨-, hb⟩, hc⟩, hd⟩, he⟩
    rcases h3 with h | h | h | h <;> linarith

/-- C1 (witness): the bounds hold of the point produced by a concrete
valid row, and a concrete row with latitude 200 is discarded. -/
theorem c1_coordinate_range_witness :
    ((-90 : ℚ) ≤ 1 ∧ (1 : ℚ) ≤ 90 ∧ (-180 : ℚ) ≤ 2 ∧ (2 : ℚ) ≤ 180) ∧
    mainRowPoint ⟨some "seq 1", some 200, some 2, some 0⟩ = none :=
  ⟨c1_coordinate_range.1 [⟨some "seq 1", some 1, some 2, some 0⟩] (1, 2, mainWeight 0)
      (by simp +decide [mainHeatData, mainRowPoint, mainRowSeqOk, List.filterMap]),
   c1_coordinate_range.2 ⟨some "seq 1", some 200, some 2, some 0⟩ 200 2 rfl rfl (by norm_num)⟩

/-- C2: both fixed-range normalizers compute
`(clamp(x, -21, 12) + 21) / 33` — rtmap.py clamps then scales, main.py
scales then clamps to `[0, 1]`, and the two agree everywhere — and in
particular `-21 ↦ 0`, `12 ↦ 1` and `-4.5 ↦ 0.5` under both. -/
theorem c2_fixed_range_normalizer :
    ∀ x : ℚ,
      rtmapWeight x = (max (-21) (min x 12) + 21) / 33 ∧
      mainWeight x = (max (-21) (min x 12) + 21) / 33 ∧
      mainWeight (-21) = 0 ∧ mainWeight 12 = 1 ∧ mainWeight (-9/2) = 1/2 ∧
      rtmapWeight (-21) = 0 ∧ rtmapWeight 12 = 1 ∧ rtmapWeight (-9/2) = 1/2 := by
  intro x
  have he : rtmapWeight x = (max (-21) (min x 12) + 21) / 33 := by
    unfold rtmapWeight clip
    norm_num [sub_neg_eq_add]
  refine ⟨he, (weight_eq x).trans he, ?_, ?_, ?_, ?_, ?_, ?_⟩ <;>
    norm_num [mainWeight, rtmapWeight, clip]

/-- C3 (counterexample): with one readable CSV lacking the required
columns — so zero usable input — rtmap.py completes with exit status 0
(the claim demands non-zero), and main.py (given the base-map columns but
no SNR column) still writes the output file (the claim demands no
output). -/
theorem c3_all_unusable_counterexample :
    rtUsable RtCsv.noCols = false ∧
    rt_main [RtCsv.noCols] = ⟨0, false, true⟩ ∧
    main_create_heatmap_layer ⟨true, true, true, true, false, []⟩ = none ∧
    main_main [⟨true, true, true, true, false, []⟩] = ⟨0, true, false⟩ := by
  decide

/-- C3 (amended): with zero usable input, rtmap.py never writes the
output file and either shows a terminal message or exits non-zero, but
whenever at least one file exists and every file is readable (merely
unusable) it completes with exit status 0; and main.py writes its output
file regardless of usability as soon as the first file is readable and
carries the `payload` / `rx lat` / `rx long` columns. -/
theorem c3_all_unusable :
    (∀ files : List RtCsv, (∀ f ∈ files, rtUsable f = false) →
        (rt_main files).outputWritten = false ∧
        ((rt_main files).exitCode = 1 ∨ (rt_main files).msgShown = true)) ∧
    (∀ files : List RtCsv, files ≠ [] →
        (∀ f ∈ files, rtReadable f = true ∧ rtUsable f = false) →
        (rt_main files).exitCode = 0) ∧
    (∀ (first : MainCsv) (rest : List MainCsv),
        first.readable = true → first.hasPayloadCol = true →
        first.hasLatCol = true → first.hasLongCol = true →
        (main_main (first :: rest)).outputWritten = true) := by
  refine ⟨?_, ?_, ?_⟩
  · intro files h
    unfold rt_main
    rcases files with _ | ⟨f, fs⟩
    · exact ⟨rfl, Or.inl rfl⟩
    · simp only [List.isEmpty_cons, if_false]
      rcases collect_unusable (f :: fs) h with he | he <;> rw [he]
      · exact ⟨rfl, Or.inl rfl⟩
      · exact ⟨rfl, Or.inr rfl⟩
  · intro files hne h
    unfold rt_main
    rcases files with _ | ⟨f, fs⟩
    · exact absurd rfl hne
    · simp only [List.isEmpty_cons, if_false]
      rw [collect_readable_unusable (f :: fs) h]
      rfl
  · intro first rest h1 h2 h3 h4
    unfold main_main
    simp [h1, h2, h3, h4]

/-- C3 (witness): the amended claim evaluated on a one-file run whose
only file is readable but unusable, and on a main.py run whose first
file has the base-map columns but no usable layer. -/
theorem c3_all_unusable_witness :
    ((rt_main [RtCsv.noCols]).outputWritten = false ∧
      ((rt_main [RtCsv.noCols]).exitCode = 1 ∨ (rt_main [RtCsv.noCols]).msgShown = true)) ∧
    (rt_main [RtCsv.noCols]).exitCode = 0 ∧
    (main_main [⟨true, true, true, true, false, []⟩]).outputWritten = true :=
  ⟨c3_all_unusable.1 [RtCsv.noCols] (by decide),
   c3_all_unusable.2.1 [RtCsv.noCols] (by decide) (by decide),
   c3_all_unusable.2.2 ⟨true, true, true, true, false, []⟩ [] rfl rfl rfl rfl⟩

/-- C4 (counterexample): in rtmap.py an unreadable first file aborts the
entire run (exit status 1, nothing written) even though the second file
alone would have produced a map, so the claim that one file's failure
never aborts the run is false for rtmap.py. -/
theorem c4_unreadable_counterexample :
    rt_main [RtCsv.unreadable, RtCsv.cols [⟨some 1, some 2, some 3⟩]] = ⟨1, false, false⟩ ∧
    rt_main [RtCsv.cols [⟨some 1, some 2, some 3⟩]] = ⟨0, true, false⟩ := by
  decide

/-- C4 (amended): main.py `create_heatmap_layer` catches the read error,
logs a warning, returns `None` and the remaining files are processed
unaffected; rtmap.py has no such handler — an unreadable file raises out
of its collecting loop and aborts the run (and main.py itself also
aborts when its unguarded base-map read of the first file fails). -/
theorem c4_unreadable_file_skipped :
    (∀ f : MainCsv, f.readable = false →
        main_create_heatmap_layer f = none ∧
        ∀ pre post, mainLayers (pre ++ f :: post) = mainLayers (pre ++ post)) ∧
    (∀ post : List RtCsv, rt_collectLayers (RtCsv.unreadable :: post) = Except.error ()) := by
  constructor
  · intro f h
    have hnone : main_create_heatmap_layer f = none := by
      unfold main_create_heatmap_layer
      rw [h]
      rfl
    exact ⟨hnone, fun pre post => by
      simp [mainLayers, List.filterMap_append, List.filterMap_cons, hnone]⟩
  · intro post
    rfl

/-- C4 (witness): the amended claim evaluated on one concrete unreadable
file per script. -/
theorem c4_unreadable_file_skipped_witness :
    main_create_heatmap_layer ⟨false, true, true, true, true, []⟩ = none ∧
    mainLayers ([] ++ (⟨false, true, true, true, true, []⟩ : MainCsv) :: []) =
      mainLayers ([] ++ []) ∧
    rt_collectLayers (RtCsv.unreadable :: []) = Except.error () :=
  ⟨(c4_unreadable_file_skipped.1 ⟨false, true, true, true, true, []⟩ rfl).1,
   (c4_unreadable_file_skipped.1 ⟨false, true, true, true, true, []⟩ rfl).2 [] [],
   c4_unreadable_file_skipped.2 []⟩

/-- C5 (counterexample): the spec's matching policy (case-insensitive,
whitespace/underscore-insensitive substring containment) resolves the
field set `RX LAT / RX LONG / RX SNR`, but the code's resolver — exact
key lookup — resolves nothing on the same payload, so the claim that the
resolver uses that policy is false. -/
theorem c5_resolver_counterexample :
    specFindField ["lat", "latitude", "rxlat"] ["RX LAT", "RX LONG", "RX SNR"] = some "RX LAT" ∧
    extract_values_from_payload (Payload.dictPayload
      [("RX LAT", PyVal.vnum 45), ("RX LONG", PyVal.vnum 9), ("RX SNR", PyVal.vnum 5)]) =
      (none, none, none) := by
  decide

/-- C5 (amended): field resolution is exact-name lookup, not substring
matching — rtmap.py tries the exact keys `rx lat` / `lat` / `latitude`
(likewise for longitude and SNR) in that fixed synonym order, so with
several truthy candidates present the synonym-list order wins, not the
declaration order of the input field set (`rx lat` beats an
earlier-declared `latitude`). -/
theorem c5_resolver_exact_keys :
    ∀ (a b lo s : ℚ), a ≠ 0 → b ≠ 0 → lo ≠ 0 → s ≠ 0 →
      extract_values_from_payload (Payload.dictPayload
        [("latitude", PyVal.vnum a), ("rx lat", PyVal.vnum b),
         ("rx long", PyVal.vnum lo), ("rx snr", PyVal.vnum s)]) =
      (some b, some lo, some s) := by
  intro a b lo s ha hb hlo hs
  simp +decide [extract_values_from_payload, extractFromDict, dictGet, pyOr,
    pyTruthy, pyFloat, List.find?, ha, hb, hlo, hs]

/-- C5 (witness): the amended claim evaluated on a concrete payload in
which `latitude` is declared before `rx lat` and `rx lat` still wins. -/
theorem c5_resolver_exact_keys_witness :
    extract_values_from_payload (Payload.dictPayload
      [("latitude", PyVal.vnum 1), ("rx lat", PyVal.vnum 2),
       ("rx long", PyVal.vnum 3), ("rx snr", PyVal.vnum 4)]) =
    (some 2, some 3, some 4) :=
  c5_resolver_exact_keys 1 2 3 4 (by norm_num) (by norm_num) (by norm_num) (by norm_num)

/-- C6: under the spec-modelled per-dataset min-max policy the dataset
minimum gets weight 0 and the dataset maximum weight 1 whenever the two
differ, and a dataset whose values are all equal gets weight 0.5 at
every point with the division never taken. -/
theorem c6_minmax_normalizer :
    ∀ (v : ℚ) (vs : List ℚ),
      (datasetMin v vs ≠ datasetMax v vs →
        minMaxWeight (datasetMin v vs) (datasetMax v vs) (datasetMin v vs) = 0 ∧
        minMaxWeight (datasetMin v vs) (datasetMax v vs) (datasetMax v vs) = 1) ∧
      ((∀ x ∈ v :: vs, x = v) →
        minMaxWeights v vs = (v :: vs).map (fun _ => 1 / 2)) := by
  intro v vs
  constructor
  · intro h
    unfold minMaxWeight
    rw [if_neg h, if_neg h]
    constructor
    · rw [sub_self, zero_div]
    · exact div_self (sub_ne_zero.mpr (Ne.symm h))
  · intro h
    have htail : ∀ x ∈ vs, x = v := fun x hx => h x (by simp [hx])
    unfold minMaxWeights datasetMin datasetMax
    rw [foldl_min_const vs v htail, foldl_max_const vs v htail]
    have hmap : ∀ (l : List ℚ), l.map (minMaxWeight v v) = l.map (fun _ => (1:ℚ)/2) := by
      intro l
      induction l with
      | nil => rfl
      | cons a as ih => simp [List.map_cons, ih, minMaxWeight]
    exact hmap (v :: vs)

/-- C6 (witness): the min-max claim evaluated on the two-point dataset
`[0, 1]` and on the degenerate all-equal dataset `[3, 3]`. -/
theorem c6_minmax_normalizer_witness :
    (minMaxWeight (datasetMin 0 [1]) (datasetMax 0 [1]) (datasetMin 0 [1]) = 0 ∧
     minMaxWeight (datasetMin 0 [1]) (datasetMax 0 [1]) (datasetMax 0 [1]) = 1) ∧
    minMaxWeights 3 [3] = ((3 : ℚ) :: [3]).map (fun _ => 1 / 2) :=
  ⟨(c6_minmax_normalizer 0 [1]).1 (by norm_num [datasetMin, datasetMax]),
   (c6_minmax_normalizer 3 [3]).2
      (by intro x hx; rcases List.mem_cons.1 hx with h | h; exact h; simpa using h)⟩

/-- C7: both fixed-range normalizers are monotonically non-decreasing in
the raw value and always produce a weight in `[0, 1]`. -/
theorem c7_weight_monotone_bounded :
    ∀ x y : ℚ, x ≤ y →
      mainWeight x ≤ mainWeight y ∧ rtmapWeight x ≤ rtmapWeight y ∧
      0 ≤ mainWeight x ∧ mainWeight x ≤ 1 ∧ 0 ≤ rtmapWeight x ∧ rtmapWeight x ≤ 1 := by
  intro x y h
  rw [← weight_eq, ← weight_eq]
  exact ⟨mainWeight_mono h, mainWeight_mono h, (mainWeight_bounds x).1,
    (mainWeight_bounds x).2, (mainWeight_bounds x).1, (mainWeight_bounds x).2⟩

/-- C7 (witness): monotonicity and bounds evaluated at the raw values 0
and 1. -/
theorem c7_weight_monotone_bounded_witness :
    mainWeight 0 ≤ mainWeight 1 ∧ rtmapWeight 0 ≤ rtmapWeight 1 ∧
    0 ≤ mainWeight 0 ∧ mainWeight 0 ≤ 1 ∧ 0 ≤ rtmapWeight 0 ∧ rtmapWeight 0 ≤ 1 :=
  c7_weight_monotone_bounded 0 1 (by norm_num)

/-- C8: a payload that is neither a string nor a dict, or whose string
fails (or survives) `json.loads` without producing a mapping, resolves
to no fields at all, and exactly that record disappears from the
heat-point list — the records around it are processed unchanged and no
exception escapes. -/
theorem c8_payload_failure_isolated :
    ∀ p : Payload,
      (p = Payload.otherPayload ∨ p = Payload.strPayload DecodeResult.failed ∨
        p = Payload.strPayload DecodeResult.nonObj) →
      extract_values_from_payload p = (none, none, none) ∧
      ∀ pre post, rtmapPayloadHeatPoints (pre ++ p :: post) =
          rtmapPayloadHeatPoints pre ++ rtmapPayloadHeatPoints post := by
  intro p hp
  have hex : extract_values_from_payload p = (none, none, none) := by
    rcases hp with h | h | h <;> subst h <;> rfl
  refine ⟨hex, fun pre post => ?_⟩
  simp [rtmapPayloadHeatPoints, List.filterMap_append, List.filterMap_cons, hex]

/-- C8 (witness): a non-string, non-dict payload dropped from between a
valid record and the end of the dataset. -/
theorem c8_payload_failure_isolated_witness :
    extract_values_from_payload Payload.otherPayload = (none, none, none) ∧
    rtmapPayloadHeatPoints
        ([Payload.dictPayload [("rx lat", PyVal.vnum 1), ("rx long", PyVal.vnum 2), ("rx snr", PyVal.vnum 3)]]
          ++ Payload.otherPayload :: []) =
      rtmapPayloadHeatPoints
          [Payload.dictPayload [("rx lat", PyVal.vnum 1), ("rx long", PyVal.vnum 2), ("rx snr", PyVal.vnum 3)]]
        ++ rtmapPayloadHeatPoints [] :=
  ⟨(c8_payload_failure_isolated Payload.otherPayload (Or.inl rfl)).1,
   (c8_payload_failure_isolated Payload.otherPayload (Or.inl rfl)).2
      [Payload.dictPayload [("rx lat", PyVal.vnum 1), ("rx long", PyVal.vnum 2), ("rx snr", PyVal.vnum 3)]] []⟩

/-- C9: the payload `\x7b"rx lat": 0.0, "rx long": 10.0, "rx snr": 5\x7d`
resolves to no fields — the falsy 0.0 under the primary key `rx lat`
falls through the `or`-chain as if absent, the fallback keys are missing,
and the final `float(None)` fails — so the record yields no heat
point. -/
theorem c9_falsy_zero_dropped :
    extract_values_from_payload (Payload.dictPayload
      [("rx lat", PyVal.vnum 0), ("rx long", PyVal.vnum 10), ("rx snr", PyVal.vnum 5)]) =
      (none, none, none) ∧
    rtmapPayloadHeatPoints [Payload.dictPayload
      [("rx lat", PyVal.vnum 0), ("rx long", PyVal.vnum 10), ("rx snr", PyVal.vnum 5)]] = [] := by
  decide

/-- C10: a main.py row reaches the heat-point set only through a payload
cell containing a `seq <digits>` marker: every emitted point comes from a
row passing the marker filter, and a row failing it yields no point and
vanishes from the output whatever its coordinates and SNR are. -/
theorem c10_seq_marker_required :
    (∀ (rows : List MainRow) (p : HeatPoint), p ∈ mainHeatData rows →
        ∃ r ∈ rows, mainRowSeqOk r = true ∧ mainRowPoint r = some p) ∧
    (∀ r : MainRow, mainRowSeqOk r = false →
        mainRowPoint r = none ∧
        ∀ pre post, mainHeatData (pre ++ r :: post) = mainHeatData (pre ++ post)) := by
  constructor
  · intro rows p hp
    rw [mainHeatData, List.mem_filterMap] at hp
    obtain ⟨r, hr, he⟩ := hp
    refine ⟨r, hr, ?_, he⟩
    unfold mainRowPoint at he
    rcases hla : r.rxLat with _ | la <;> rw [hla] at he
    · exact absurd he (by simp)
    rcases hlo : r.rxLong with _ | lo <;> rw [hlo] at he
    · exact absurd he (by simp)
    rcases hsn : r.rxSnr with _ | s <;> rw [hsn] at he
    · exact absurd he (by simp)
    simp only at he
    split at he
    · next hc =>
        simp only [Bool.and_eq_true] at hc
        exact hc.1.1.1.1
    · exact absurd he (by simp)
  · intro r h
    have hnone : mainRowPoint r = none := by
      unfold mainRowPoint
      rcases r.rxLat with _ | la
      · rfl
      rcases r.rxLong with _ | lo
      · rfl
      rcases r.rxSnr with _ | s
      · rfl
      simp [h]
    refine ⟨hnone, fun pre post => ?_⟩
    simp [mainHeatData, List.filterMap_append, List.filterMap_cons, hnone]

/-- C10 (witness): a row with payload `seq 1` contributes its point, and
a row with payload `hello` and valid coordinates and SNR is excluded. -/
theorem c10_seq_marker_required_witness :
    (∃ r ∈ [(⟨some "seq 1", some 1, some 2, some 0⟩ : MainRow)],
        mainRowSeqOk r = true ∧ mainRowPoint r = some (1, 2, mainWeight 0)) ∧
    mainRowPoint ⟨some "hello", some 1, some 2, some 3⟩ = none ∧
    mainHeatData ([] ++ (⟨some "hello", some 1, some 2, some 3⟩ : MainRow) :: []) =
      mainHeatData ([] ++ []) :=
  ⟨c10_seq_marker_required.1 [⟨some "seq 1", some 1, some 2, some 0⟩] (1, 2, mainWeight 0)
      (by simp +decide [mainHeatData, mainRowPoint, mainRowSeqOk, List.filterMap]),
   (c10_seq_marker_required.2 ⟨some "hello", some 1, some 2, some 3⟩ (by decide)).1,
   (c10_seq_marker_required.2 ⟨some "hello", some 1, some 2, some 3⟩ (by decide)).2 [] []⟩
